import Mathlib

/-!
# Verification of the translate-any-pdf translation pipeline

Shallow embedding of the core of the `translate-any-pdf` repository:
the segmenter, the caching/retrying translation client and the
eligibility filter from `document_translator.py`, and the job
orchestration logic from `api.py`.  Machine strings are Lean `String`s;
Python dictionaries are association lists; the external translation
service is an explicit parameter describing the outcome of each attempt.
-/

namespace Translate

/-! ## Python string primitives

`isPySpace` is the character class of Python's `str.strip()` / `str.split()`
and of the regex class `\s` (restricted to ASCII, which suffices for all
texts appearing in the claims). -/

def isPySpace (c : Char) : Bool :=
  c == ' ' || c == '\t' || c == '\n' || c == '\r' || c == '\x0b' || c == '\x0c'

/-- Python `text.strip()`: remove leading and trailing whitespace. -/
def pyStrip (s : String) : String :=
  ⟨((s.data.dropWhile isPySpace).reverse.dropWhile isPySpace).reverse⟩

/-- Python `c in text` for a single character. -/
def pyContains (s : String) (c : Char) : Bool :=
  s.data.contains c

/-- Python `text.startswith(p)`. -/
def pyStartsWith (s p : String) : Bool :=
  p.data.isPrefixOf s.data

/-- Python `len(text)` (code points). -/
def pyLen (s : String) : Nat :=
  s.data.length

/-- Helper for `pyWordCount`: `inWord` records whether the previous
character belonged to a word. -/
def pyWordCountAux (inWord : Bool) : List Char → Nat
  | [] => 0
  | c :: rest =>
      if isPySpace c then pyWordCountAux false rest
      else (if inWord then 0 else 1) + pyWordCountAux true rest

/-- Python `len(text.split())`: number of maximal whitespace-free runs. -/
def pyWordCount (s : String) : Nat :=
  pyWordCountAux false s.data

/-- Character class of the "pure numbers or dates" regex in
`should_translate_text`: digit, whitespace, hyphen, slash, dot or comma. -/
def isNumPunctChar (c : Char) : Bool :=
  c.isDigit || isPySpace c || c == '-' || c == '/' || c == '.' || c == ','

/-- The anchored one-or-more match of that class succeeding: the text is
nonempty and every character is a digit, whitespace, hyphen, slash, dot
or comma. -/
def matchesNumPunct (s : String) : Bool :=
  !s.data.isEmpty && s.data.all isNumPunctChar

/-! ## Eligibility filter

`EnhancedDocumentTranslator.should_translate_text`
(`document_translator.py`, lines 239-270), transcribed check by check in
source order. -/

def should_translate_text (text0 : String) : Bool :=
  let text := pyStrip text0
  if text == "" then false
  else if pyContains text '@' && pyContains text '.' && pyWordCount text == 1 then false
  else if pyStartsWith text "http://" || pyStartsWith text "https://"
          || pyStartsWith text "www." then false
  else if matchesNumPunct text then false
  else if pyLen text < 3 then false
  else true

/-- The exclusion predicate exactly as claim C4 words it: trimmed text
empty or under 2 characters, single token with both `@` and `.`,
URL-scheme/`www.` prefix, purely numeric/punctuation, or no letter
characters at all. -/
def claimC4Excluded (text0 : String) : Bool :=
  let text := pyStrip text0
  text == "" || pyLen text < 2
    || (pyContains text '@' && pyContains text '.' && pyWordCount text == 1)
    || (pyStartsWith text "http://" || pyStartsWith text "https://"
        || pyStartsWith text "www.")
    || matchesNumPunct text
    || !text.data.any Char.isAlpha

/-! ## Segmenter

The sentence-grouping loop of
`EnhancedDocumentTranslator.translate_with_context`
(`document_translator.py`, lines 137-156).  Sentences come from
`split_into_sentences` (NLTK `sent_tokenize`, an external library), so
the grouping is modelled as a function of an arbitrary sentence list.
`joinSp` is Python's `' '.join(...)`. -/

def joinSp : List String → String
  | [] => ""
  | [s] => s
  | s :: rest => s ++ " " ++ joinSp rest

/-- The loop body of lines 142-156: `cur` is `current_chunk`, `size` is
`current_size`; a new chunk starts when adding the sentence would exceed
`maxSize` and the current chunk is nonempty, and the remaining chunk is
flushed at the end. -/
def groupGo (maxSize : Nat) : List String → List String → Nat → List String
  | [], cur, _ => if cur.isEmpty then [] else [joinSp cur]
  | s :: rest, cur, size =>
      if maxSize < size + pyLen s && !cur.isEmpty then
        joinSp cur :: groupGo maxSize rest [s] (pyLen s)
      else
        groupGo maxSize rest (cur ++ [s]) (size + pyLen s)

/-- Chunks produced by grouping `sentences` under `maxSize` (the
segmentation loop of `translate_with_context` starting from
`chunks = []`, `current_chunk = []`, `current_size = 0`). -/
def groupSentences (maxSize : Nat) (sentences : List String) : List String :=
  groupGo maxSize sentences [] 0

/-- The complete segmentation step of `translate_with_context`: a text no
longer than `max_chunk_size` is translated as the single chunk `text`
(line 134-135); otherwise the sentence list is grouped (lines 137-156). -/
def segmentationChunks (maxSize : Nat) (text : String) (sentences : List String) :
    List String :=
  if pyLen text ≤ maxSize then [text] else groupSentences maxSize sentences

/-- Sum of the sentence lengths of a group (the quantity tracked by
`current_size`; note the loop does not count the joining spaces). -/
def sumLens (g : List String) : Nat :=
  (g.map pyLen).sum

/-- What an output chunk of the grouping loop actually is: the
space-join of a nonempty run of input sentences, and when it holds two
or more sentences their summed length is at most `maxSize` (so the
chunk's own length is at most `maxSize` plus the joining spaces).  A
single sentence longer than `maxSize` becomes its own chunk verbatim:
it is never split on word boundaries. -/
def ChunkOK (maxSize : Nat) (sentences : List String) (c : String) : Prop :=
  ∃ g : List String, g ≠ [] ∧ (∀ s ∈ g, s ∈ sentences) ∧ c = joinSp g ∧
    (2 ≤ g.length → sumLens g ≤ maxSize ∧ pyLen c ≤ maxSize + (g.length - 1))

/-! ## Translation client

`EnhancedDocumentTranslator.translate_chunk`
(`document_translator.py`, lines 176-237).  The external service is a
function from the attempt number to the outcome of
`self.translator.translate(chunk)`:  `err` models a raised exception,
`val none` a `None` return, `val (some s)` a returned string (possibly
empty).  The per-instance `context_cache` dictionary is an association
list where insertion prepends and lookup takes the most recent binding;
the `calls` field counts invocations of the external service. -/

inductive SvcResult where
  | err : SvcResult
  | val : Option String → SvcResult
deriving DecidableEq

abbrev Cache := List (String × String)

def cacheLookup (cache : Cache) (k : String) : Option String :=
  (cache.find? (fun p => p.1 == k)).map (fun p => p.2)

def cacheInsert (cache : Cache) (k v : String) : Cache :=
  (k, v) :: cache

/-- Result of one call to `translate_chunk`: returned text, cache state
after the call, and how many times the external service was invoked. -/
structure ChunkCall where
  result : String
  cache : Cache
  calls : Nat
deriving DecidableEq

/-- Lines 207-215: a `None` or empty result is replaced by the original
chunk (a non-string result is handled identically and is subsumed by
these two cases). -/
def normalizeResp (chunk : String) : Option String → String
  | none => chunk
  | some s => if s == "" then chunk else s

/-- The retry loop of lines 195-236, one list element per remaining
attempt.  On success the (normalized) result is cached and returned; on
an exception the loop retries, except on the last attempt (line 225,
`attempt == max_retries - 1`), where the original chunk is cached and
returned.  The `[]` case is the unreachable fall-through `return chunk`
of line 237. -/
def runAttempts (chunk : String) (cache : Cache) (calls : Nat) :
    List SvcResult → ChunkCall
  | [] => ⟨chunk, cache, calls⟩
  | r :: rest =>
      match r with
      | .err =>
          if rest.isEmpty then
            ⟨chunk, cacheInsert cache chunk chunk, calls + 1⟩
          else
            runAttempts chunk cache (calls + 1) rest
      | .val v =>
          let t := normalizeResp chunk v
          ⟨t, cacheInsert cache chunk t, calls + 1⟩

/-- `max_retries = 3` (line 194). -/
def max_retries : Nat := 3

/-- `translate_chunk`: blank chunks are returned unchanged without
touching the service or the cache (lines 186-187); a cached chunk is
served from `context_cache` (lines 190-191); otherwise the retry loop
runs with outcomes `svc 0, svc 1, svc 2`. -/
def translate_chunk (svc : Nat → SvcResult) (chunk : String) (cache : Cache) :
    ChunkCall :=
  if pyStrip chunk == "" then ⟨chunk, cache, 0⟩
  else
    match cacheLookup cache chunk with
    | some v => ⟨v, cache, 0⟩
    | none => runAttempts chunk cache 0 ((List.range max_retries).map svc)

/-- A service whose every attempt raises. -/
def svcAlwaysFail : Nat → SvcResult := fun _ => .err

/-- A service whose every attempt returns the string `"hola"`. -/
def svcAlwaysHola : Nat → SvcResult := fun _ => .val (some "hola")

/-! ## Document rewriter failure semantics

`translate_xml_document` (`document_translator.py`, lines 341-362)
wraps each paragraph's translation in `try/except ... continue`: a
failing paragraph keeps its original text and the loop proceeds.
`translate_pdf` (lines 591-657) does the same per text block.  A
paragraph's translation outcome is an `Except`: `error` models the
exception caught at line 360. -/

def translateParagraphs (f : String → Except String String)
    (ps : List String) : List String :=
  ps.map (fun p => match f p with | .ok q => q | .error _ => p)

/-- File-type dispatch of `EnhancedDocumentTranslator.translate_document`
(`document_translator.py`, lines 684-698): `.docx` and `.pdf` (case
insensitive) are routed to the respective pipelines, anything else
raises `ValueError` — fatal to the job. -/
inductive DocRoute where
  | docx : DocRoute
  | pdf : DocRoute
  | unsupportedError : String → DocRoute
deriving DecidableEq

def pyLower (s : String) : String :=
  ⟨s.data.map Char.toLower⟩

def pyEndsWith (s p : String) : Bool :=
  p.data.isSuffixOf s.data

def translate_document_route (name : String) : DocRoute :=
  if pyEndsWith (pyLower name) ".docx" then .docx
  else if pyEndsWith (pyLower name) ".pdf" then .pdf
  else .unsupportedError "Unsupported file type. Only .docx and .pdf files are supported."

/-- A paragraph translation that always raises, for concrete instances. -/
def alwaysError : String → Except String String := fun _ => .error "boom"

end Translate

namespace Api

open Translate

/-! ## Orchestrator (`api.py`)

### Module import and the availability gate

`api.py` lines 40-45 run `from document_translator import
DocumentTranslator`; Python resolves that to an attribute lookup in the
`document_translator` module and raises `ImportError` when no such
module-level name exists, which sets `TRANSLATOR_AVAILABLE = False`.
`document_translator_module_names` lists every module-level name bound
in `document_translator.py` (imports, constants, the two functions and
the single class). -/

def document_translator_module_names : List String :=
  ["sys", "os", "shutil", "subprocess", "GoogleTranslator", "defused_minidom",
   "minidom", "time", "re", "nltk", "sent_tokenize", "Document", "fitz",
   "DOCX_SUPPORT", "PDF_SUPPORT", "get_python_executable",
   "EnhancedDocumentTranslator", "main"]

def TRANSLATOR_AVAILABLE : Bool :=
  document_translator_module_names.contains "DocumentTranslator"

/-- Outcome of a request handler: an HTTP error raised by a guard, or
whatever the rest of the handler would produce. -/
inductive EndpointResult where
  | httpError : Nat → String → EndpointResult
  | proceed : EndpointResult
deriving DecidableEq

/-- The first guard of the `/translate` handler (`api.py` lines
766-771): when the translator is unavailable the request is rejected
with 503 before any document lookup or processing; `rest` stands for
everything the handler does after this guard. -/
def translate_endpoint_gate (available : Bool) (rest : EndpointResult) :
    EndpointResult :=
  if !available then
    .httpError 503 "Translation service not available. Contact administrator."
  else rest

/-! ### Background-vs-synchronous dispatch

`/translate` (`api.py` lines 794-830) computes `file_size_mb =
file_size / (1024*1024)` (exact binary floating-point division by a
power of two for any size up to the 100MB upload cap) and uses the
background path exactly when `file_size_mb > 2`, returning at once with
status `"queued"`; otherwise it translates synchronously on the
caller's thread. -/

def MB : Nat := 1024 * 1024

def use_background (file_size : Nat) : Bool :=
  2 * MB < file_size

inductive TranslateDispatch where
  | background : String → TranslateDispatch
  | sync : TranslateDispatch
deriving DecidableEq

def translate_dispatch (file_size : Nat) : TranslateDispatch :=
  if use_background file_size then .background "queued" else .sync

/-! ### Per-job timeout monitor

`process_translation_task` (`api.py` lines 376-515) starts
`update_progress` on a separate daemon thread (lines 441-442).  The
monitor raises `Exception("Translation timeout")` once `elapsed >
TRANSLATION_TIMEOUT` (lines 421-423).  In Python an exception raised in
a `threading.Thread` target terminates only that thread; it cannot
reach the `try/except` of `process_translation_task`, which runs on the
worker thread.  The final job status is therefore a function of the
worker's own outcome alone: `"completed"` when
`translator.translate_document` returns (lines 459-484), `"failed"`
only when an exception is raised on the worker thread itself
(lines 494-515). -/

def TRANSLATION_TIMEOUT : Nat := 1800

inductive MonitorOutcome where
  | raisedTimeout : MonitorOutcome
  | running : MonitorOutcome
deriving DecidableEq

/-- The timeout check inside `update_progress`, evaluated on the
monitor thread. -/
def update_progress_check (elapsed : Nat) : MonitorOutcome :=
  if TRANSLATION_TIMEOUT < elapsed then .raisedTimeout else .running

/-- Final task status set by `process_translation_task` as a function of
the worker thread's own outcome (the monitor thread's exception is not
observable here). -/
def process_translation_task_status (workerOutcome : Except String Unit) : String :=
  match workerOutcome with
  | .ok _ => "completed"
  | .error _ => "failed"

/-! ### Cancellation

`cancel_task` (`api.py` lines 935-956) and the task registry of
`TranslationTaskManager`. -/

structure Task where
  user_id : String
  status : String
deriving DecidableEq

abbrev TaskMap := List (String × Task)

def taskLookup (ts : TaskMap) (tid : String) : Option Task :=
  (ts.find? (fun p => p.1 == tid)).map (fun p => p.2)

/-- `task_manager.update_task(task_id, status="cancelled", ...)`. -/
def setCancelled (ts : TaskMap) (tid : String) : TaskMap :=
  ts.map (fun p => if p.1 == tid then (p.1, { p.2 with status := "cancelled" }) else p)

inductive CancelResponse where
  | ok : String → CancelResponse
  | httpError : Nat → String → CancelResponse
deriving DecidableEq

/-- The `/task/{task_id}/cancel` handler: 404 when the task is unknown,
403 when owned by another user, 400 when the status is already
`"completed"` or `"failed"`; otherwise the status is set to
`"cancelled"`.  The second component is the task registry after the
call. -/
def cancel_task (ts : TaskMap) (tid uid : String) : CancelResponse × TaskMap :=
  match taskLookup ts tid with
  | none => (.httpError 404 "Task not found", ts)
  | some t =>
      if t.user_id ≠ uid then (.httpError 403 "Not authorized", ts)
      else if t.status == "completed" || t.status == "failed" then
        (.httpError 400 "Task already finished", ts)
      else (.ok "Task cancelled", setCancelled ts tid)

/-- A registry holding one already-cancelled task, owned by `"u1"`. -/
def cancelledTaskMap : TaskMap := [("t1", ⟨"u1", "cancelled"⟩)]

/-- A registry holding one completed task, owned by `"u1"`. -/
def completedTaskMap : TaskMap := [("t1", ⟨"u1", "completed"⟩)]

end Api

section Lemmas

open Translate

lemma cacheLookup_insert_self (cache : Cache) (k v : String) :
    cacheLookup (cacheInsert cache k v) k = some v := by
  simp [cacheLookup, cacheInsert]

lemma translate_chunk_cache_hit (svc : Nat → SvcResult) (chunk v : String)
    (cache : Cache) (hblank : pyStrip chunk ≠ "")
    (hhit : cacheLookup cache chunk = some v) :
    translate_chunk svc chunk cache = ⟨v, cache, 0⟩ := by
  have hb : ¬ (pyStrip chunk == "") = true := by simp [hblank]
  unfold translate_chunk
  rw [if_neg hb, hhit]

lemma translate_chunk_all_fail (svc : Nat → SvcResult) (chunk : String)
    (cache : Cache) (hsvc : ∀ n, svc n = SvcResult.err)
    (hblank : pyStrip chunk ≠ "") (hmiss : cacheLookup cache chunk = none) :
    translate_chunk svc chunk cache =
      ⟨chunk, cacheInsert cache chunk chunk, max_retries⟩ := by
  have hb : ¬ (pyStrip chunk == "") = true := by simp [hblank]
  have hlist : (List.range max_retries).map svc
      = [SvcResult.err, SvcResult.err, SvcResult.err] := by
    show [svc 0, svc 1, svc 2] = _
    rw [hsvc 0, hsvc 1, hsvc 2]
  unfold translate_chunk
  rw [if_neg hb, hmiss, hlist]
  rfl

lemma translate_chunk_first_success (svc : Nat → SvcResult) (t chunk : String)
    (cache : Cache) (hsucc : svc 0 = SvcResult.val (some t)) (ht : t ≠ "")
    (hblank : pyStrip chunk ≠ "") (hmiss : cacheLookup cache chunk = none) :
    translate_chunk svc chunk cache = ⟨t, cacheInsert cache chunk t, 1⟩ := by
  have hb : ¬ (pyStrip chunk == "") = true := by simp [hblank]
  unfold translate_chunk
  rw [if_neg hb, hmiss]
  show runAttempts chunk cache 0 [svc 0, svc 1, svc 2] = _
  rw [hsucc]
  simp [runAttempts, normalizeResp, ht]

lemma pyLen_append (a b : String) : pyLen (a ++ b) = pyLen a + pyLen b := by
  simp [pyLen, String.data_append]

lemma sumLens_cons (s : String) (g : List String) :
    sumLens (s :: g) = pyLen s + sumLens g := by
  simp [sumLens]

lemma sumLens_append (a b : List String) :
    sumLens (a ++ b) = sumLens a + sumLens b := by
  simp [sumLens]

lemma joinSp_length (g : List String) (hg : g ≠ []) :
    pyLen (joinSp g) = sumLens g + (g.length - 1) := by
  induction g with
  | nil => exact absurd rfl hg
  | cons s rest ih =>
    cases rest with
    | nil => simp [joinSp, sumLens]
    | cons t r2 =>
      have h2 : (t :: r2) ≠ [] := by simp
      rw [show joinSp (s :: t :: r2) = s ++ " " ++ joinSp (t :: r2) from rfl,
        pyLen_append, pyLen_append, ih h2]
      have hsp : pyLen " " = 1 := rfl
      simp only [sumLens_cons, List.length_cons]
      omega

lemma groupGo_chunkOK (maxSize : Nat) (sents : List String) :
    ∀ rest : List String, (∀ x ∈ rest, x ∈ sents) →
    ∀ cur : List String, (∀ x ∈ cur, x ∈ sents) →
    ∀ size : Nat, size = sumLens cur → (2 ≤ cur.length → size ≤ maxSize) →
    ∀ c ∈ groupGo maxSize rest cur size, ChunkOK maxSize sents c := by
  intro rest
  induction rest with
  | nil =>
    intro _ cur hcur size hsz hbound c hc
    by_cases hemp : cur = []
    · subst hemp
      simp [groupGo] at hc
    · have : groupGo maxSize [] cur size = [joinSp cur] := by
        simp [groupGo, hemp]
      rw [this] at hc
      simp at hc
      subst hc
      refine ⟨cur, hemp, hcur, rfl, fun h2 => ?_⟩
      have hb := hbound h2
      rw [hsz] at hb
      refine ⟨hb, ?_⟩
      rw [joinSp_length cur hemp]
      omega
  | cons s rest ih =>
    intro hrest cur hcur size hsz hbound c hc
    have hs : s ∈ sents := hrest s (by simp)
    have hrest' : ∀ x ∈ rest, x ∈ sents := fun x hx => hrest x (by simp [hx])
    simp only [groupGo] at hc
    split at hc
    case isTrue hcond =>
      have hcur_ne : cur ≠ [] := by
        rcases Bool.and_eq_true_iff.mp hcond with ⟨-, hne⟩
        simpa [List.isEmpty_iff] using hne
      rcases List.mem_cons.mp hc with hceq | hcrec
      · subst hceq
        refine ⟨cur, hcur_ne, hcur, rfl, fun h2 => ?_⟩
        have hb := hbound h2
        rw [hsz] at hb
        refine ⟨hb, ?_⟩
        rw [joinSp_length cur hcur_ne]
        omega
      · refine ih hrest' [s] (by simpa using hs) (pyLen s) (by simp [sumLens]) ?_ c hcrec
        intro h2
        simp at h2
    case isFalse hcond =>
      refine ih hrest' (cur ++ [s]) ?_ (size + pyLen s) ?_ ?_ c hc
      · intro x hx
        rcases List.mem_append.mp hx with hx | hx
        · exact hcur x hx
        · simp at hx
          subst hx
          exact hs
      · rw [sumLens_append, hsz]
        simp [sumLens]
      · intro h2
        have hcf : (decide (maxSize < size + pyLen s) && !cur.isEmpty) = false := by
          simpa using hcond
        rcases Bool.and_eq_false_iff.mp hcf with hlt | hne
        · have hnl : ¬ (maxSize < size + pyLen s) := by simpa using hlt
          omega
        · have hce : cur = [] := by simpa [List.isEmpty_iff] using hne
          subst hce
          simp at h2

end Lemmas

section ClaimTheorems

open Translate Api

/-- Claim C1: in any environment where `api.py` itself loads, the import
of the name `DocumentTranslator` from module `document_translator` fails
(the module defines only `EnhancedDocumentTranslator`), so
`TRANSLATOR_AVAILABLE` is `False` and the `/translate` endpoint rejects
every translation request with the 503 "Translation service not
available" error before any document processing starts. -/
theorem c1_import_failure_gates_translate :
    Api.TRANSLATOR_AVAILABLE = false ∧
    ∀ rest : Api.EndpointResult,
      Api.translate_endpoint_gate Api.TRANSLATOR_AVAILABLE rest =
        Api.EndpointResult.httpError 503
          "Translation service not available. Contact administrator." := by
  refine ⟨by decide, fun rest => ?_⟩
  rfl

/-- Claim C3, counterexample: `translate_chunk` with an always-failing
service makes exactly 3 attempts, not the 5 the claim states
(`max_retries = 3` in `document_translator.py` line 194). -/
theorem c3_counterexample_three_attempts_not_five :
    (translate_chunk svcAlwaysFail "hello" []).calls = 3 ∧
    (translate_chunk svcAlwaysFail "hello" []).calls ≠ 5 ∧
    (translate_chunk svcAlwaysFail "hello" []).result = "hello" := by
  decide

/-- Claim C3 as amended: if the external service fails on every attempt,
`translate_chunk` makes exactly the configured maximum number of
attempts — which defaults to 3, not 5 — then returns the original chunk
unchanged (caching it), and never raises to the caller (the model is a
total function; every exception of the service is consumed by the
retry loop). -/
theorem c3_amended_retry_exhaustion (svc : Nat → SvcResult) (chunk : String)
    (cache : Cache) (hsvc : ∀ n, svc n = SvcResult.err)
    (hblank : pyStrip chunk ≠ "") (hmiss : cacheLookup cache chunk = none) :
    translate_chunk svc chunk cache =
      ⟨chunk, cacheInsert cache chunk chunk, max_retries⟩ ∧ max_retries = 3 :=
  ⟨translate_chunk_all_fail svc chunk cache hsvc hblank hmiss, rfl⟩

/-- Witness for C3: the amended theorem applied to the chunk `"hello"`,
an empty cache and the always-failing service. -/
theorem c3_amended_retry_exhaustion_witness :
    (∀ n, svcAlwaysFail n = SvcResult.err) ∧ pyStrip "hello" ≠ "" ∧
    cacheLookup [] "hello" = none ∧
    (translate_chunk svcAlwaysFail "hello" [] =
        ⟨"hello", cacheInsert [] "hello" "hello", max_retries⟩ ∧ max_retries = 3) :=
  ⟨fun _ => rfl, by decide, rfl,
    c3_amended_retry_exhaustion svcAlwaysFail "hello" []
      (fun _ => rfl) (by decide) rfl⟩

/-- Claim C6: for every chunk text (chunks are non-blank by
construction) and fixed language pair, calling the translation client
on it twice — starting from the fresh, empty per-instance cache — with
an unchanged external service that succeeds results in exactly one
external service invocation and two identical return values: the second
call is served from `context_cache` without a network call. -/
theorem c6_cache_idempotence (svc : Nat → SvcResult) (t chunk : String)
    (hsucc : svc 0 = SvcResult.val (some t)) (ht : t ≠ "")
    (hchunk : pyStrip chunk ≠ "") :
    (translate_chunk svc chunk []).calls
      + (translate_chunk svc chunk (translate_chunk svc chunk []).cache).calls = 1 ∧
    (translate_chunk svc chunk (translate_chunk svc chunk []).cache).result
      = (translate_chunk svc chunk []).result := by
  have h1 : translate_chunk svc chunk [] = ⟨t, cacheInsert [] chunk t, 1⟩ :=
    translate_chunk_first_success svc t chunk [] hsucc ht hchunk rfl
  have h2 : translate_chunk svc chunk (cacheInsert [] chunk t)
      = ⟨t, cacheInsert [] chunk t, 0⟩ :=
    translate_chunk_cache_hit svc chunk t (cacheInsert [] chunk t) hchunk
      (cacheLookup_insert_self [] chunk t)
  rw [h1, h2]
  exact ⟨rfl, rfl⟩

/-- Witness for C6: the theorem applied to the chunk `"hello"` and the
service that always returns `"hola"`. -/
theorem c6_cache_idempotence_witness :
    svcAlwaysHola 0 = SvcResult.val (some "hola") ∧ "hola" ≠ "" ∧
    pyStrip "hello" ≠ "" ∧
    ((translate_chunk svcAlwaysHola "hello" []).calls
      + (translate_chunk svcAlwaysHola "hello"
          (translate_chunk svcAlwaysHola "hello" []).cache).calls = 1 ∧
     (translate_chunk svcAlwaysHola "hello"
          (translate_chunk svcAlwaysHola "hello" []).cache).result
        = (translate_chunk svcAlwaysHola "hello" []).result) :=
  ⟨rfl, by decide, by decide,
    c6_cache_idempotence svcAlwaysHola "hola" "hello" rfl (by decide) (by decide)⟩

/-- Claim C10: once `translate_chunk` exhausts its retries it stores the
original untranslated chunk in `context_cache`; every subsequent call
with the same chunk text on the same translator instance returns the
untranslated original immediately from the cache with zero service
invocations — even if the service (`svc2`) has recovered. -/
theorem c10_failed_chunk_cached_permanently (svcFail svc2 : Nat → SvcResult)
    (chunk : String) (cache : Cache) (hsvc : ∀ n, svcFail n = SvcResult.err)
    (hblank : pyStrip chunk ≠ "") (hmiss : cacheLookup cache chunk = none) :
    cacheLookup (translate_chunk svcFail chunk cache).cache chunk = some chunk ∧
    translate_chunk svc2 chunk (translate_chunk svcFail chunk cache).cache =
      ⟨chunk, (translate_chunk svcFail chunk cache).cache, 0⟩ := by
  have h1 : translate_chunk svcFail chunk cache =
      ⟨chunk, cacheInsert cache chunk chunk, max_retries⟩ :=
    translate_chunk_all_fail svcFail chunk cache hsvc hblank hmiss
  rw [h1]
  exact ⟨cacheLookup_insert_self cache chunk chunk,
    translate_chunk_cache_hit svc2 chunk chunk _ hblank
      (cacheLookup_insert_self cache chunk chunk)⟩

/-- Witness for C10: exhaustion on `"hello"`, then a recovered service
returning `"hola"` still yields the cached original with no calls. -/
theorem c10_failed_chunk_cached_permanently_witness :
    (∀ n, svcAlwaysFail n = SvcResult.err) ∧ pyStrip "hello" ≠ "" ∧
    cacheLookup [] "hello" = none ∧
    (cacheLookup (translate_chunk svcAlwaysFail "hello" []).cache "hello"
        = some "hello" ∧
     translate_chunk svcAlwaysHola "hello"
          (translate_chunk svcAlwaysFail "hello" []).cache =
        ⟨"hello", (translate_chunk svcAlwaysFail "hello" []).cache, 0⟩) :=
  ⟨fun _ => rfl, by decide, rfl,
    c10_failed_chunk_cached_permanently svcAlwaysFail svcAlwaysHola "hello" []
      (fun _ => rfl) (by decide) rfl⟩

/-- Claim C8: a submitted document above the 2MB threshold is dispatched
to a background task and the endpoint returns status `"queued"`; one at
or below the threshold is executed synchronously on the caller's
thread; in particular a 50MB document is always queued, never
synchronous. -/
theorem c8_size_threshold_dispatch :
    (∀ n : Nat,
      (translate_dispatch n = TranslateDispatch.background "queued" ↔ 2 * MB < n) ∧
      (translate_dispatch n = TranslateDispatch.sync ↔ n ≤ 2 * MB)) ∧
    translate_dispatch (50 * MB) = TranslateDispatch.background "queued" := by
  refine ⟨fun n => ?_, by decide⟩
  by_cases h : 2 * MB < n
  · have hd : translate_dispatch n = TranslateDispatch.background "queued" := by
      simp [translate_dispatch, use_background, h]
    simp only [hd]
    constructor
    · exact ⟨fun _ => h, fun _ => trivial⟩
    · constructor
      · intro hx
        exact absurd hx (by simp)
      · intro hx
        exact absurd h (not_lt.mpr hx)
  · have hd : translate_dispatch n = TranslateDispatch.sync := by
      simp [translate_dispatch, use_background, h]
    simp only [hd]
    constructor
    · constructor
      · intro hx
        exact absurd hx (by simp)
      · intro hx
        exact absurd hx h
    · exact ⟨fun _ => not_lt.mp h, fun _ => trivial⟩

/-- Claim C5 (code bug): the monitor detects the 30-minute timeout and
raises, but it raises on its own daemon thread, so the job status
computed by `process_translation_task`'s worker thread is `"completed"`
whenever the (late) translation eventually succeeds — the job does not
transition to `"failed"` and can remain `"processing"` arbitrarily long
past the timeout, contradicting the claim and the code's evident
intent. -/
theorem c5_timeout_raised_but_job_completes (elapsed : Nat)
    (h : TRANSLATION_TIMEOUT < elapsed) :
    update_progress_check elapsed = MonitorOutcome.raisedTimeout ∧
    process_translation_task_status (Except.ok ()) = "completed" ∧
    "completed" ≠ "failed" := by
  refine ⟨?_, rfl, by decide⟩
  simp [update_progress_check, h]

/-- Witness for C5: a job 1801 seconds in. -/
theorem c5_timeout_raised_but_job_completes_witness :
    TRANSLATION_TIMEOUT < 1801 ∧
    (update_progress_check 1801 = MonitorOutcome.raisedTimeout ∧
     process_translation_task_status (Except.ok ()) = "completed" ∧
     "completed" ≠ "failed") :=
  ⟨by decide, c5_timeout_raised_but_job_completes 1801 (by decide)⟩

/-- Claim C2, counterexample: with `maxChunkSize = 10` the segmentation
step turns the single 27-character, five-word sentence into one chunk of
27 characters — longer than the limit, made of several words, and never
split on word boundaries. -/
theorem c2_counterexample_oversized_sentence_kept_whole :
    segmentationChunks 10 "hello there brave new world"
        ["hello there brave new world"] = ["hello there brave new world"] ∧
    10 < pyLen "hello there brave new world" ∧
    pyWordCount "hello there brave new world" = 5 := by
  decide

/-- Claim C2 as amended: every chunk produced by the segmentation step
of `translate_with_context` is either the whole text (when it fits the
limit) or the space-join of a nonempty run of input sentences; a chunk
holding two or more sentences has summed sentence length at most
`maxChunkSize` (chunk length at most `maxChunkSize` plus the joining
spaces), while a single sentence longer than `maxChunkSize` becomes its
own oversized chunk verbatim — it is never split on word boundaries. -/
theorem c2_amended_chunk_structure (maxSize : Nat) (text : String)
    (sentences : List String) (c : String)
    (hc : c ∈ segmentationChunks maxSize text sentences) :
    (pyLen text ≤ maxSize ∧ c = text) ∨ ChunkOK maxSize sentences c := by
  unfold segmentationChunks at hc
  split at hc
  case isTrue h =>
    simp at hc
    exact Or.inl ⟨h, hc⟩
  case isFalse h =>
    exact Or.inr (groupGo_chunkOK maxSize sentences sentences (fun _ hx => hx)
      [] (by simp) 0 (by simp [sumLens]) (by intro h2; simp at h2) c hc)

/-- Witness for C2: the amended theorem at the oversized one-sentence
input. -/
theorem c2_amended_chunk_structure_witness :
    ("hello there brave new world" ∈ segmentationChunks 10
      "hello there brave new world" ["hello there brave new world"]) ∧
    ((pyLen "hello there brave new world" ≤ 10 ∧
        "hello there brave new world" = "hello there brave new world") ∨
      ChunkOK 10 ["hello there brave new world"] "hello there brave new world") :=
  ⟨by decide, c2_amended_chunk_structure 10 "hello there brave new world"
    ["hello there brave new world"] "hello there brave new world" (by decide)⟩

/-- Claim C4, counterexample: the two-character text `"ab"` is not
excluded by any rule the claim lists (it is 2 characters, so not "under
2"), yet the code refuses to translate it (`len(text) < 3`); and `"!!!"`
contains no letters, which the claim says is excluded, yet the code
translates it (no such rule exists in `should_translate_text`). -/
theorem c4_counterexample_length_and_letters :
    should_translate_text "ab" = false ∧ claimC4Excluded "ab" = false ∧
    should_translate_text "!!!" = true ∧ claimC4Excluded "!!!" = true := by
  decide

/-- Claim C4 as amended: `should_translate_text` returns `False` exactly
when the trimmed text is empty, is a single whitespace-free token
containing both `@` and `.`, starts with `http://`, `https://` or
`www.`, consists solely of digits, whitespace, hyphens, slashes, dots
and commas, or is shorter than 3 characters; there is no separate
"contains no letters" rule. -/
theorem c4_amended_exclusion_characterization (text : String) :
    should_translate_text text = false ↔
      (pyStrip text = ""
        ∨ (pyContains (pyStrip text) '@' = true ∧
            pyContains (pyStrip text) '.' = true ∧
            pyWordCount (pyStrip text) = 1)
        ∨ (pyStartsWith (pyStrip text) "http://" = true
            ∨ pyStartsWith (pyStrip text) "https://" = true
            ∨ pyStartsWith (pyStrip text) "www." = true)
        ∨ matchesNumPunct (pyStrip text) = true
        ∨ pyLen (pyStrip text) < 3) := by
  unfold should_translate_text
  dsimp only
  split_ifs with h1 h2 h3 h4 h5 <;>
    (simp_all [beq_iff_eq]; try tauto)

/-- Claim C7, counterexample: a task whose status is already
`"cancelled"` — neither `"queued"` nor `"processing"` — is accepted for
cancellation again, because the handler only rejects `"completed"` and
`"failed"`. -/
theorem c7_counterexample_cancel_accepted_on_cancelled :
    (cancel_task cancelledTaskMap "t1" "u1").1 =
        CancelResponse.ok "Task cancelled" ∧
    taskLookup cancelledTaskMap "t1" = some ⟨"u1", "cancelled"⟩ ∧
    ("cancelled" : String) ≠ "queued" ∧
    ("cancelled" : String) ≠ "processing" := by
  decide

/-- Claim C7 as amended: for an existing task owned by the caller, a
cancel request is accepted exactly when the status is neither
`"completed"` nor `"failed"` (so also when it is already
`"cancelled"`); a cancel on a `"completed"` or `"failed"` task is
rejected with an error and leaves the registry unchanged. -/
theorem c7_amended_cancel_acceptance (ts : TaskMap) (tid uid : String)
    (t : Task) (hfind : taskLookup ts tid = some t)
    (howner : t.user_id = uid) :
    ((cancel_task ts tid uid).1 = CancelResponse.ok "Task cancelled"
        ↔ (t.status ≠ "completed" ∧ t.status ≠ "failed")) ∧
    ((t.status = "completed" ∨ t.status = "failed") →
        cancel_task ts tid uid =
          (CancelResponse.httpError 400 "Task already finished", ts)) := by
  simp only [cancel_task, hfind]
  rw [if_neg (by simp [howner])]
  by_cases hs : (t.status == "completed" || t.status == "failed") = true
  · rw [if_pos hs]
    simp only [Bool.or_eq_true, beq_iff_eq] at hs
    constructor
    · constructor
      · intro hx
        exact absurd hx (by simp)
      · intro ⟨ha, hb⟩
        rcases hs with hs | hs
        · exact absurd hs ha
        · exact absurd hs hb
    · intro _
      rfl
  · rw [if_neg hs]
    simp only [Bool.or_eq_true, beq_iff_eq, not_or] at hs
    constructor
    · exact ⟨fun _ => hs, fun _ => rfl⟩
    · intro hor
      rcases hor with hx | hx
      · exact absurd hx hs.1
      · exact absurd hx hs.2

/-- Witness for C7: the amended theorem at a completed task. -/
theorem c7_amended_cancel_acceptance_witness :
    taskLookup completedTaskMap "t1" = some ⟨"u1", "completed"⟩ ∧
    (Task.user_id ⟨"u1", "completed"⟩ = "u1") ∧
    (((cancel_task completedTaskMap "t1" "u1").1 =
          CancelResponse.ok "Task cancelled"
        ↔ (Task.status ⟨"u1", "completed"⟩ ≠ "completed" ∧
           Task.status ⟨"u1", "completed"⟩ ≠ "failed")) ∧
     ((Task.status ⟨"u1", "completed"⟩ = "completed" ∨
       Task.status ⟨"u1", "completed"⟩ = "failed") →
        cancel_task completedTaskMap "t1" "u1" =
          (CancelResponse.httpError 400 "Task already finished",
            completedTaskMap))) :=
  ⟨rfl, rfl, c7_amended_cancel_acceptance completedTaskMap "t1" "u1"
    ⟨"u1", "completed"⟩ rfl rfl⟩

/-- Claim C9: the failure of translating a single paragraph or block
leaves that node with its original text while the remaining nodes are
still processed (the output has one entry per input node), and an
unsupported file format is fatal: `translate_document` raises its
`ValueError` instead of producing output. -/
theorem c9_paragraph_failure_absorbed (f : String → Except String String)
    (ps : List String) (i : Nat) (hi : i < ps.length) (e : String)
    (herr : f (ps.getD i "") = Except.error e) (name : String)
    (hdocx : pyEndsWith (pyLower name) ".docx" = false)
    (hpdf : pyEndsWith (pyLower name) ".pdf" = false) :
    (translateParagraphs f ps).length = ps.length ∧
    (translateParagraphs f ps).getD i "" = ps.getD i "" ∧
    translate_document_route name = DocRoute.unsupportedError
      "Unsupported file type. Only .docx and .pdf files are supported." := by
  refine ⟨by simp [translateParagraphs], ?_,
    by simp [translate_document_route, hdocx, hpdf]⟩
  have hi2 : i < (translateParagraphs f ps).length := by
    simpa [translateParagraphs] using hi
  rw [List.getD_eq_getElem _ _ hi2, List.getD_eq_getElem _ _ hi]
  rw [List.getD_eq_getElem _ _ hi] at herr
  simp only [translateParagraphs, List.getElem_map]
  rw [herr]

/-- Witness for C9: a two-paragraph document whose second paragraph
always fails, and an unsupported `.txt` job. -/
theorem c9_paragraph_failure_absorbed_witness :
    1 < (["alpha", "beta"] : List String).length ∧
    alwaysError ((["alpha", "beta"] : List String).getD 1 "") =
      Except.error "boom" ∧
    pyEndsWith (pyLower "notes.txt") ".docx" = false ∧
    pyEndsWith (pyLower "notes.txt") ".pdf" = false ∧
    ((translateParagraphs alwaysError ["alpha", "beta"]).length =
        (["alpha", "beta"] : List String).length ∧
     (translateParagraphs alwaysError ["alpha", "beta"]).getD 1 "" =
        (["alpha", "beta"] : List String).getD 1 "" ∧
     translate_document_route "notes.txt" = DocRoute.unsupportedError
       "Unsupported file type. Only .docx and .pdf files are supported.") :=
  ⟨by decide, rfl, by decide, by decide,
    c9_paragraph_failure_absorbed alwaysError ["alpha", "beta"] 1 (by decide)
      "boom" rfl "notes.txt" (by decide) (by decide)⟩

end ClaimTheorems
